import Mathlib

/-!
Verification of the CHIP-8 interpreter in src/chip8.cpp / src/chip8.hpp
(denny0754/chip8-emulator).

The machine state is a shallow embedding of `class Chip8` (src/chip8.hpp,
lines 50-113).  Byte-valued C++ members are modelled as `Nat` holding values
in [0,256); 16-bit members as `Nat` in [0,65536).  Array members become total
functions `Nat -> Nat` (reads outside the C++ array bounds correspond to the
out-of-bounds accesses the original performs without checks).  Every integer
conversion the C++ performs on assignment (int -> uint8_t, int -> uint16_t)
is rendered as an explicit `% 256` / `% 65536`.
-/

/-- State of the interpreter: one field per data member of `class Chip8`
(src/chip8.hpp lines 50-78).  `ir`, `pc`, `sp`, `vr` are the four entries of
`m_InternalRegisters` (enum `InternalRegisters`); the other names follow the
C++ members (`mem` = `m_Memory`, `reg` = `m_GeneralRegisters`,
`stack` = `m_Stack`, `video` = `m_VideoMemory`, etc.). -/
structure Chip8 where
  mem : Nat → Nat
  ir : Nat
  pc : Nat
  sp : Nat
  vr : Nat
  reg : Nat → Nat
  stack : Nat → Nat
  programSize : Nat
  delayTimer : Nat
  soundTimer : Nat
  keyPressed : Nat → Bool
  awaitingKey : Nat
  video : Nat → Nat
  shouldRedraw : Bool

/-- The 80 font bytes `CHIP8_FONTS` (src/chip8.cpp lines 22-40). -/
def CHIP8_FONTS : List Nat :=
  [0xF0, 0x90, 0x90, 0x90, 0xF0,
   0x20, 0x60, 0x20, 0x20, 0x70,
   0xF0, 0x10, 0xF0, 0x80, 0xF0,
   0xF0, 0x10, 0xF0, 0x10, 0xF0,
   0x90, 0x90, 0xF0, 0x10, 0x10,
   0xF0, 0x80, 0xF0, 0x10, 0xF0,
   0xF0, 0x80, 0xF0, 0x90, 0xF0,
   0xF0, 0x10, 0x20, 0x40, 0x40,
   0xF0, 0x90, 0xF0, 0x90, 0xF0,
   0xF0, 0x90, 0xF0, 0x10, 0xF0,
   0xF0, 0x90, 0xF0, 0x90, 0x90,
   0xE0, 0x90, 0xE0, 0x90, 0xE0,
   0xF0, 0x80, 0x80, 0x80, 0xF0,
   0xE0, 0x90, 0x90, 0x90, 0xE0,
   0xF0, 0x80, 0xF0, 0x80, 0xF0,
   0xF0, 0x80, 0xF0, 0x80, 0x80]

/-- The constructor `Chip8::Chip8()` (src/chip8.cpp lines 43-58).  It copies
the 80 font bytes to the start of `m_Memory` and zero-fills `m_VideoMemory`,
`m_GeneralRegisters`, `m_InternalRegisters` (then sets PC to 0x200) and
`m_Stack`.  It never writes `m_Memory` beyond the fonts, `m_KeyPressed`,
`m_ShouldRedraw` or `program_size`; those members have no default member
initializer in src/chip8.hpp either, so they hold indeterminate values,
modelled by the `junk...` parameters.  `m_DelayTimer`, `m_SoundTimer` and
`m_AwaitingKey` have `= 0` initializers in src/chip8.hpp (lines 65-72). -/
def Chip8.init (junkMem : Nat → Nat) (junkKeys : Nat → Bool)
    (junkRedraw : Bool) (junkProgSize : Nat) : Chip8 where
  mem := fun a => if a < 80 then CHIP8_FONTS.getD a 0 else junkMem a
  ir := 0
  pc := 0x200
  sp := 0
  vr := 0
  reg := fun _ => 0
  stack := fun _ => 0
  programSize := junkProgSize
  delayTimer := 0
  soundTimer := 0
  keyPressed := junkKeys
  awaitingKey := 0
  video := fun _ => 0
  shouldRedraw := junkRedraw

/-- `uint8_t` subtraction `a - b` as the C++ performs it: the int difference
converted back to a byte, i.e. reduced modulo 256 (mathematically the
nonnegative representative of a-b). -/
def bsub (a b : Nat) : Nat := (((a : Int) - (b : Int)) % 256).toNat

/-- Fetch of the 16-bit opcode at PC (src/chip8.cpp line 136):
`(m_Memory[PC] << 8) | m_Memory[PC+1]`. -/
def fetchOp (c : Chip8) : Nat := (c.mem c.pc) <<< 8 ||| c.mem (c.pc + 1)

/-- `std::mt19937` seeding from the default seed 5489 (C++ [rand.eng.mers]):
state word i of the freshly constructed generator `std::mt19937 rnd{}` that
`Chip8::emulate_op` builds on every call (src/chip8.cpp line 133). -/
def mt_init : Nat → Nat
  | 0 => 5489
  | i + 1 => (1812433253 * (mt_init i ^^^ (mt_init i >>> 30)) + (i + 1)) % 4294967296

/-- First 32-bit output of a default-seeded `std::mt19937`: one twist step
followed by the standard tempering. -/
def mt_first_raw : Nat :=
  let y := (mt_init 0 &&& 0x80000000) + (mt_init 1 &&& 0x7fffffff)
  let z := mt_init 397 ^^^ (y >>> 1) ^^^ (if y &&& 1 = 1 then 0x9908b0df else 0)
  let t1 := z ^^^ (z >>> 11)
  let t2 := t1 ^^^ ((t1 <<< 7) &&& 0x9d2c5680)
  let t3 := t2 ^^^ ((t2 <<< 15) &&& 0xefc60000)
  t3 ^^^ (t3 >>> 18)

/-- Value of `std::uniform_int_distribution<>(0, 255)` applied to a fresh
default-seeded `std::mt19937` (src/chip8.cpp line 308).  The standard leaves
the mapping from raw draws to the range unspecified; this is the libstdc++
mapping (divide by (2^32-1)/256 = 16777215; the first raw draw is below the
rejection threshold).  What the claims depend on is only that this is one
fixed constant: the generator is reconstructed from the same default seed on
every call, so every Cxkk execution sees the same first draw. -/
def uniform_0_255_first : Nat := mt_first_raw / 16777215

/-- The sprite-drawing loop of opcode Dxyn (src/chip8.cpp lines 320-339).
The pair `st` carries (`m_GeneralRegisters`, `m_VideoMemory`); both are
threaded because the loop writes VF inside and the C++ reads `Vx`, `Vy`
through references, so the coordinate reads see those writes.  For every row
`h` the byte `*row_pixels` is `m_Memory[I + h]`; for every set bit `w` the
pixel at `(Vx+w) % 64, (Vy+h) % 32` is tested (setting VF to whether it was
1) and XOR-ed with 1. -/
def drawSprite (mem : Nat → Nat) (x y ir height : Nat)
    (st : (Nat → Nat) × (Nat → Nat)) : (Nat → Nat) × (Nat → Nat) :=
  (List.range height).foldl (fun st h =>
    let py := (st.1 y + h) % 32
    let rowByte := mem (ir + h)
    (List.range 8).foldl (fun st w =>
      if rowByte &&& (0b10000000 >>> w) ≠ 0 then
        let px := (st.1 x + w) % 64
        let idx := 64 * py + px
        let pixel := st.2 idx
        (Function.update st.1 0xF (if pixel = 1 then 1 else 0),
         Function.update st.2 idx (pixel ^^^ 1))
      else st) st) st

/-- The opcode dispatch of `Chip8::emulate_op` (src/chip8.cpp lines 154-448):
the `switch (msb >> 4)` with its nested switches, written as the equivalent
chain of exact-match tests.  `Except.error 2` models the `not_handled` macro
(line 131), which prints the opcode and calls `exit(2)`: the process
terminates with status 2 and no machine state survives.  Branch notes:
* family 0x0, low nibble 0x0 (the `clr` case, lines 159-161): the body is
  empty in the source - no framebuffer clear, no redraw, no PC increment;
* family 0xE has no `default:` case (lines 346-361), so an unmatched low
  byte falls out of the switch leaving the state untouched;
* 8xy4/8xy5/8xy6/8xy7/8xyE write VF before updating Vx/Vy, and the C++
  accesses Vx/Vy through references, so the second write reads the
  registers after the VF write (visible when x or y is 0xF);
* Fx1E adds Vx to I first and only then computes VF from the updated I
  (lines 392-393). -/
def execOp (c : Chip8) (u msb lsb x y kk n nnn : Nat) : Except Nat Chip8 :=
  if u = 0x0 then
    if lsb &&& 0xf = 0x0 then
      Except.ok c
    else if lsb &&& 0xf = 0xe then
      let sp1 := (c.sp + 65535) % 65536
      Except.ok { c with pc := (c.stack sp1 + 2) % 65536, sp := sp1 }
    else Except.error 2
  else if u = 0x1 then
    Except.ok { c with pc := nnn }
  else if u = 0x2 then
    Except.ok { c with stack := Function.update c.stack c.sp c.pc,
                       sp := (c.sp + 1) % 65536, pc := nnn }
  else if u = 0x3 then
    let pc1 := if c.reg x = kk then (c.pc + 2) % 65536 else c.pc
    Except.ok { c with pc := (pc1 + 2) % 65536 }
  else if u = 0x4 then
    let pc1 := if c.reg x ≠ kk then (c.pc + 2) % 65536 else c.pc
    Except.ok { c with pc := (pc1 + 2) % 65536 }
  else if u = 0x5 then
    let pc1 := if c.reg x = c.reg y then (c.pc + 2) % 65536 else c.pc
    Except.ok { c with pc := (pc1 + 2) % 65536 }
  else if u = 0x6 then
    Except.ok { c with reg := Function.update c.reg x kk,
                       pc := (c.pc + 2) % 65536 }
  else if u = 0x7 then
    Except.ok { c with reg := Function.update c.reg x ((c.reg x + kk) % 256),
                       pc := (c.pc + 2) % 65536 }
  else if u = 0x8 then
    if lsb &&& 0xf = 0x0 then
      Except.ok { c with reg := Function.update c.reg x (c.reg y),
                         pc := (c.pc + 2) % 65536 }
    else if lsb &&& 0xf = 0x1 then
      Except.ok { c with reg := Function.update c.reg x (c.reg x ||| c.reg y),
                         pc := (c.pc + 2) % 65536 }
    else if lsb &&& 0xf = 0x2 then
      Except.ok { c with reg := Function.update c.reg x (c.reg x &&& c.reg y),
                         pc := (c.pc + 2) % 65536 }
    else if lsb &&& 0xf = 0x3 then
      Except.ok { c with reg := Function.update c.reg x (c.reg x ^^^ c.reg y),
                         pc := (c.pc + 2) % 65536 }
    else if lsb &&& 0xf = 0x4 then
      let tmp := c.reg x + c.reg y
      let reg1 := Function.update c.reg 0xF (if tmp > 0xff then 1 else 0)
      let reg2 := Function.update reg1 x ((reg1 x + reg1 y) % 256)
      Except.ok { c with reg := reg2, pc := (c.pc + 2) % 65536 }
    else if lsb &&& 0xf = 0x5 then
      let reg1 := Function.update c.reg 0xF (if c.reg x > c.reg y then 1 else 0)
      let reg2 := Function.update reg1 x (bsub (reg1 x) (reg1 y))
      Except.ok { c with reg := reg2, pc := (c.pc + 2) % 65536 }
    else if lsb &&& 0xf = 0x6 then
      let reg1 := Function.update c.reg 0xF (c.reg x &&& 1)
      let reg2 := Function.update reg1 x (reg1 x >>> 1)
      Except.ok { c with reg := reg2, pc := (c.pc + 2) % 65536 }
    else if lsb &&& 0xf = 0x7 then
      let reg1 := Function.update c.reg 0xF (if c.reg y > c.reg x then 1 else 0)
      let reg2 := Function.update reg1 y (bsub (reg1 y) (reg1 x))
      Except.ok { c with reg := reg2, pc := (c.pc + 2) % 65536 }
    else if lsb &&& 0xf = 0xe then
      let reg1 := Function.update c.reg 0xF (c.reg x >>> 7)
      let reg2 := Function.update reg1 x ((reg1 x <<< 1) % 256)
      Except.ok { c with reg := reg2, pc := (c.pc + 2) % 65536 }
    else Except.error 2
  else if u = 0x9 then
    let pc1 := if c.reg x ≠ c.reg y then (c.pc + 2) % 65536 else c.pc
    Except.ok { c with pc := (pc1 + 2) % 65536 }
  else if u = 0xA then
    Except.ok { c with ir := nnn, pc := (c.pc + 2) % 65536 }
  else if u = 0xB then
    Except.ok { c with pc := (c.reg 0 + nnn) % 65536 }
  else if u = 0xC then
    Except.ok { c with reg := Function.update c.reg x (uniform_0_255_first &&& kk),
                       pc := (c.pc + 2) % 65536 }
  else if u = 0xD then
    let rv := drawSprite c.mem x y c.ir n (c.reg, c.video)
    Except.ok { c with reg := rv.1, video := rv.2, shouldRedraw := true,
                       pc := (c.pc + 2) % 65536 }
  else if u = 0xE then
    if lsb = 0x9E then
      let pc1 := if c.keyPressed (c.reg x) then (c.pc + 2) % 65536 else c.pc
      Except.ok { c with pc := (pc1 + 2) % 65536 }
    else if lsb = 0xA1 then
      let pc1 := if ¬ c.keyPressed (c.reg x) then (c.pc + 2) % 65536 else c.pc
      Except.ok { c with pc := (pc1 + 2) % 65536 }
    else Except.ok c
  else if u = 0xF then
    if lsb = 0x07 then
      Except.ok { c with reg := Function.update c.reg x c.delayTimer,
                         pc := (c.pc + 2) % 65536 }
    else if lsb = 0x0A then
      Except.ok { c with awaitingKey := 0x80 ||| x, pc := (c.pc + 2) % 65536 }
    else if lsb = 0x15 then
      Except.ok { c with delayTimer := c.reg x, pc := (c.pc + 2) % 65536 }
    else if lsb = 0x18 then
      Except.ok { c with soundTimer := c.reg x, pc := (c.pc + 2) % 65536 }
    else if lsb = 0x1E then
      let ir1 := (c.ir + c.reg x) % 65536
      Except.ok { c with ir := ir1,
                         reg := Function.update c.reg 0xF
                           (if ir1 + c.reg x > 0xff then 1 else 0),
                         pc := (c.pc + 2) % 65536 }
    else if lsb = 0x29 then
      Except.ok { c with ir := (5 * c.reg x) % 65536, pc := (c.pc + 2) % 65536 }
    else if lsb = 0x33 then
      let a := c.reg x / 100
      let b := (c.reg x / 10) % 10
      let d := c.reg x % 10
      Except.ok { c with
        mem := Function.update (Function.update (Function.update c.mem
          c.ir a) (c.ir + 1) b) (c.ir + 2) d,
        pc := (c.pc + 2) % 65536 }
    else if lsb = 0x55 then
      Except.ok { c with
        mem := (List.range (x + 1)).foldl
          (fun m p => Function.update m (c.ir + p) (c.reg p)) c.mem,
        ir := (c.ir + x + 1) % 65536,
        pc := (c.pc + 2) % 65536 }
    else if lsb = 0x65 then
      Except.ok { c with
        reg := (List.range (x + 1)).foldl
          (fun r p => Function.update r p (c.mem (c.ir + p))) c.reg,
        ir := (c.ir + x + 1) % 65536,
        pc := (c.pc + 2) % 65536 }
    else Except.error 2
  else Except.error 2

/-- `Chip8::emulate_op` (src/chip8.cpp lines 129-450): fetch the opcode at
PC, extract the bit fields (lines 136-145) and dispatch.  `Except.error 2`
is the `exit(2)` of the `not_handled` macro. -/
def emulate_op (c : Chip8) : Except Nat Chip8 :=
  let opcode := fetchOp c
  let msb := opcode >>> 8
  let lsb := opcode &&& 0xff
  let x := (opcode >>> 8) &&& 0xF
  let y := (opcode >>> 4) &&& 0xF
  let kk := opcode &&& 0xFF
  let n := opcode &&& 0xF
  let nnn := opcode &&& 0xFFF
  execOp c (msb >>> 4) msb lsb x y kk n nnn

/-- The machine after one `emulate_op`, keeping the old state if the call
exits the process. -/
def stepOr (c : Chip8) : Chip8 :=
  match emulate_op c with
  | Except.ok c2 => c2
  | Except.error _ => c

/-- One execute phase of the host loop (src/main.cpp lines 137-139):
`if (!emulator.GetAwaitingKey() && !paused) emulator.emulate_op();`. -/
def host_step (paused : Bool) (c : Chip8) : Except Nat Chip8 :=
  if c.awaitingKey = 0 ∧ paused = false then emulate_op c else Except.ok c

/-- The host key-down handler (src/main.cpp lines 174-180): record the key
as pressed; if the machine is awaiting a key, store the key code in the
register named by the low 7 bits of `m_AwaitingKey` and clear the flag. -/
def deliver_keydown (key : Nat) (c : Chip8) : Chip8 :=
  let c1 := { c with keyPressed := Function.update c.keyPressed key true }
  if c1.awaitingKey ≠ 0 then
    { c1 with reg := Function.update c1.reg (c1.awaitingKey &&& 0x7f) key,
              awaitingKey := 0 }
  else c1

/-- `Chip8::load_program` (src/chip8.cpp lines 91-120), with the file
replaced by the byte sequence it contains.  `program_size` is set first; a
zero-length input fails (returns false) after that write; otherwise every
byte i is stored at `m_Memory[i + m_InternalRegisters[PC]]` (line 115) with
the explicit `(byte)` cast, and true is returned.  No upper bound on
`i + PC` is checked anywhere. -/
def load_program (bs : List Nat) (c : Chip8) : Bool × Chip8 :=
  let c1 := { c with programSize := bs.length }
  if bs.length = 0 then (false, c1)
  else
    (true, { c1 with
      mem := (List.range bs.length).foldl
        (fun m i => Function.update m (i + c.pc) ((bs.getD i 0) % 256)) c.mem })

/-- An arbitrary concrete machine state used as the base of the test states:
all memory, registers and pixels zero, PC at 0x200. -/
def zeroChip : Chip8 where
  mem := fun _ => 0
  ir := 0
  pc := 0x200
  sp := 0
  vr := 0
  reg := fun _ => 0
  stack := fun _ => 0
  programSize := 0
  delayTimer := 0
  soundTimer := 0
  keyPressed := fun _ => false
  awaitingKey := 0
  video := fun _ => 0
  shouldRedraw := false

/-- The §8 scenario program `[0x60,0x05, 0x61,0x03, 0x80,0x14, 0x00,0x00]`. -/
def scenProg : List Nat := [0x60, 0x05, 0x61, 0x03, 0x80, 0x14, 0x00, 0x00]

/-- Machine right after loading the scenario program into a fresh state. -/
def scenStart : Chip8 := (load_program scenProg zeroChip).2

/-- The scenario machine after three executed instructions. -/
def scenAfter3 : Chip8 := stepOr (stepOr (stepOr scenStart))

/-- A machine suspended on Fx0A (awaiting key for V2, `m_AwaitingKey` =
0x80|2) whose next instruction would be `mov V0, 5`. -/
def awaitEx : Chip8 :=
  { zeroChip with
    mem := fun a => if a = 0x200 then 0x60 else if a = 0x201 then 0x05 else 0,
    awaitingKey := 0x82 }

/-- A machine whose fetched opcode 0x0001 matches no case of family 0x0. -/
def badOpEx : Chip8 :=
  { zeroChip with mem := fun a => if a = 0x201 then 0x01 else 0 }

/-- A machine about to execute `draw V0, V1, 1` (opcode 0xD011) with sprite
byte 0b11000000 at I = 0x300 and exactly the framebuffer pixel (0,0) set:
the first sprite bit erases that pixel, the second lands on an empty one. -/
def drawEx : Chip8 :=
  { zeroChip with
    mem := fun a => if a = 0x200 then 0xD0 else if a = 0x201 then 0x11
                    else if a = 0x300 then 0xC0 else 0,
    ir := 0x300,
    video := fun i => if i = 0 then 1 else 0 }

/-- A machine about to execute opcode 0xF01E with I = 100 and V0 = 100:
the pre-increment sum I + V0 = 200 does not exceed 255. -/
def fx1eEx : Chip8 :=
  { zeroChip with
    mem := fun a => if a = 0x200 then 0xF0 else if a = 0x201 then 0x1E else 0,
    ir := 100,
    reg := fun i => if i = 0 then 100 else 0 }

/-- A machine about to execute opcode 0x80F4 (8xy4 with y = 0xF), with
V0 = 1 and VF = 2. -/
def aliasEx : Chip8 :=
  { zeroChip with
    mem := fun a => if a = 0x200 then 0x80 else if a = 0x201 then 0xF4 else 0,
    reg := fun i => if i = 0 then 1 else if i = 0xF then 2 else 0 }

/-- A machine about to execute opcode 0x8014 (8xy4, x = 0, y = 1) with
V0 = 0xFF and V1 = 0x01: the spec's own carry example. -/
def addEx : Chip8 :=
  { zeroChip with
    mem := fun a => if a = 0x200 then 0x80 else if a = 0x201 then 0x14 else 0,
    reg := fun i => if i = 0 then 0xFF else if i = 1 then 1 else 0 }

/-- A machine about to execute the random opcode 0xC30F (`rnd V3, 0x0F`). -/
def rndEx : Chip8 :=
  { zeroChip with
    mem := fun a => if a = 0x200 then 0xC3 else if a = 0x201 then 0x0F else 0 }

/-- A freshly constructed machine whose indeterminate (never-initialized)
storage happens to hold all-ones: every uninitialized memory byte reads 1,
every key flag true, `m_ShouldRedraw` true. -/
def junkInitEx : Chip8 := Chip8.init (fun _ => 1) (fun _ => true) true 0

/-- The opcodes on which `Chip8::emulate_op` reaches the `not_handled`
macro, i.e. `printf` + `exit(2)` (src/chip8.cpp line 131): family 0x0 with a
low nibble other than 0x0/0xE (line 168), family 0x8 with a low nibble
other than 0x0-0x7/0xE (line 283), and family 0xF with an unmatched low
byte (line 440).  (Family 0xE has no default case, so its unmatched opcodes
do not exit.)  The fields are spelled exactly as `emulate_op` computes
them. -/
def unmatchedExit (op : Nat) : Prop :=
  let u := (op >>> 8) >>> 4
  let l := op &&& 0xff
  (u = 0x0 ∧ l &&& 0xf ≠ 0x0 ∧ l &&& 0xf ≠ 0xe) ∨
  (u = 0x8 ∧ l &&& 0xf ≠ 0x0 ∧ l &&& 0xf ≠ 0x1 ∧ l &&& 0xf ≠ 0x2 ∧
    l &&& 0xf ≠ 0x3 ∧ l &&& 0xf ≠ 0x4 ∧ l &&& 0xf ≠ 0x5 ∧ l &&& 0xf ≠ 0x6 ∧
    l &&& 0xf ≠ 0x7 ∧ l &&& 0xf ≠ 0xe) ∨
  (u = 0xF ∧ l ≠ 0x07 ∧ l ≠ 0x0A ∧ l ≠ 0x15 ∧ l ≠ 0x18 ∧ l ≠ 0x1E ∧
    l ≠ 0x29 ∧ l ≠ 0x33 ∧ l ≠ 0x55 ∧ l ≠ 0x65)

instance (op : Nat) : Decidable (unmatchedExit op) := by
  unfold unmatchedExit
  infer_instance

/-- The opcodes of family 0xE that match neither 0x9E nor 0xA1: the inner
`switch (lsb)` there (src/chip8.cpp lines 346-361) has no `default:` case,
so these fall out of both switches with no error and no state change. -/
def unmatchedSilent (op : Nat) : Prop :=
  let u := (op >>> 8) >>> 4
  let l := op &&& 0xff
  u = 0xE ∧ l ≠ 0x9E ∧ l ≠ 0xA1

instance (op : Nat) : Decidable (unmatchedSilent op) := by
  unfold unmatchedSilent
  infer_instance

/-- A machine whose fetched opcode 0xE055 matches no case of family 0xE. -/
def silentEx : Chip8 :=
  { zeroChip with
    mem := fun a => if a = 0x200 then 0xE0 else if a = 0x201 then 0x55 else 0 }

/-- Lowercase hexadecimal digit character of a value below 16, for printf's
%x (codepoint arithmetic: digits from 48 = 0, letters from 97 = a). -/
def hexDigitL (d : Nat) : Char :=
  if d < 10 then Char.ofNat (48 + d) else Char.ofNat (87 + d)

/-- Uppercase hexadecimal digit character of a value below 16, for printf's
%X (letters from 65 = A). -/
def hexDigitU (d : Nat) : Char :=
  if d < 10 then Char.ofNat (48 + d) else Char.ofNat (55 + d)

/-- The four hex digits of a value below 65536, most significant first. -/
def hex4digits (v : Nat) : List Nat :=
  [v / 4096 % 16, v / 256 % 16, v / 16 % 16, v % 16]

/-- Drop leading zero digits down to a minimum width, as printf's %0wx
zero-padded minimum-width conversion renders significant digits. -/
def trimTo (w : Nat) : List Nat → List Nat
  | [] => []
  | d :: rest =>
    if (d :: rest).length ≤ w then d :: rest
    else if d = 0 then trimTo w rest
    else d :: rest

/-- printf's `%0wx` (or `%0wX` when `upper`) of a value below 65536. -/
def hexStr (upper : Bool) (w v : Nat) : String :=
  String.mk ((trimTo w (hex4digits v)).map
    (fun d => if upper then hexDigitU d else hexDigitL d))

/-- The mnemonic text that `Chip8::decode` (src/chip8.cpp lines 485-556)
appends after the address header: the `switch (nib)` over `msb >> 4` with
its inner switches on `lsb` / `lsb & 0xf`, each case reproducing the
corresponding `sprintf` format.  An inner switch with no matching case
appends nothing (the empty string); the outer `default:` ("unknown") is
reproduced as the final else. -/
def decode_body (msb lsb : Nat) : String :=
  let addr := ((msb &&& 0xf) <<< 8) ||| lsb
  let vx := hexStr true 1 (msb &&& 0xf)
  let vy := hexStr true 1 (lsb >>> 4)
  let nib := msb >>> 4
  if nib = 0x0 then
    if lsb = 0xe0 then "clear" else if lsb = 0xee then "ret" else ""
  else if nib = 0x1 then "jmp 0x" ++ hexStr false 3 addr
  else if nib = 0x2 then "call 0x" ++ hexStr false 2 addr
  else if nib = 0x3 then "jeq V" ++ vx ++ ", 0x" ++ hexStr false 2 lsb
  else if nib = 0x4 then "jneq V" ++ vx ++ ", 0x" ++ hexStr false 2 lsb
  else if nib = 0x5 then "jeqr V" ++ vx ++ ", V" ++ vy
  else if nib = 0x6 then "mov V" ++ vx ++ ", 0x" ++ hexStr false 2 lsb
  else if nib = 0x7 then "add V" ++ vx ++ ", 0x" ++ hexStr false 2 lsb
  else if nib = 0x8 then
    if lsb &&& 0xf = 0 then "mov V" ++ vx ++ ", V" ++ vy
    else if lsb &&& 0xf = 1 then "or V" ++ vx ++ ", V" ++ vy
    else if lsb &&& 0xf = 2 then "and V" ++ vx ++ ", V" ++ vy
    else if lsb &&& 0xf = 3 then "xor V" ++ vx ++ ", V" ++ vy
    else if lsb &&& 0xf = 4 then "addr V" ++ vx ++ ", V" ++ vy
    else if lsb &&& 0xf = 5 then "sub V" ++ vx ++ ", V" ++ vy
    else if lsb &&& 0xf = 6 then "shr V" ++ vx ++ ", V" ++ vy
    else if lsb &&& 0xf = 7 then "subb V" ++ vx ++ ", V" ++ vy
    else if lsb &&& 0xf = 0xe then "shl V" ++ vx ++ ", V" ++ vy
    else ""
  else if nib = 0x9 then "jneqr V" ++ vx ++ ", V" ++ vy
  else if nib = 0xa then "mov I, [0x" ++ hexStr false 3 addr ++ "]"
  else if nib = 0xb then "jmp 0x" ++ hexStr false 3 addr ++ "+(V0)"
  else if nib = 0xc then "rand V" ++ vx ++ ", 0x" ++ hexStr true 2 lsb
  else if nib = 0xd then
    "draw V" ++ vx ++ ", V" ++ vy ++ ", 0x" ++ hexStr false 1 (lsb &&& 0xf)
  else if nib = 0xe then
    if lsb = 0x9E then "jkey V" ++ vx
    else if lsb = 0xA1 then "jnkey V" ++ vx
    else ""
  else if nib = 0xf then
    if lsb = 0x07 then "getdelay V" ++ vx
    else if lsb = 0x0a then "waitkey V" ++ vx
    else if lsb = 0x15 then "setdelay V" ++ vx
    else if lsb = 0x18 then "setsound V" ++ vx
    else if lsb = 0x1e then "mov I, V" ++ vx
    else if lsb = 0x29 then "spritei I, V" ++ vx
    else if lsb = 0x33 then "bcd [I], V" ++ vx
    else if lsb = 0x55 then "mov [I], V0-V" ++ vx
    else if lsb = 0x65 then "mov V0-V" ++ vx ++ ", [I]"
    else ""
  else "unknown"

/-- `Chip8::decode` (src/chip8.cpp lines 485-556): the address header
`sprintf(ln, "%04x:  %02x %02x  =>  ", i, msb, lsb)` followed by the
mnemonic text of the dispatch.  A pure function of its arguments: it reads
and writes no machine state. -/
def decode (i msb lsb : Nat) : String :=
  hexStr false 4 i ++ ":  " ++ hexStr false 2 msb ++ " " ++ hexStr false 2 lsb
    ++ "  =>  " ++ decode_body msb lsb

/-! ### Helper lemmas -/

lemma range_foldl_update (L p : Nat) (f m : Nat → Nat) (a : Nat) :
    ((List.range L).foldl (fun g i => Function.update g (i + p) (f i)) m) a
      = if p ≤ a ∧ a < p + L then f (a - p) else m a := by
  induction L with
  | zero =>
    simp only [List.range_zero, List.foldl_nil]
    rw [if_neg (show ¬ (p ≤ a ∧ a < p + 0) by omega)]
  | succ L ih =>
    rw [List.range_succ, List.foldl_append]
    simp only [List.foldl_cons, List.foldl_nil]
    rcases eq_or_ne a (L + p) with h | h
    · subst h
      rw [Function.update_same]
      have hc : p ≤ L + p ∧ L + p < p + (L + 1) := by omega
      rw [if_pos hc]
      congr 1
      omega
    · rw [Function.update_noteq h, ih]
      by_cases hin : p ≤ a ∧ a < p + L
      · rw [if_pos hin, if_pos (show p ≤ a ∧ a < p + (L + 1) by omega)]
      · rw [if_neg hin, if_neg (show ¬ (p ≤ a ∧ a < p + (L + 1)) by omega)]

lemma getD_replicate_of_lt (a d : Nat) {n i : Nat} (h : i < n) :
    (List.replicate n a).getD i d = a := by
  induction n generalizing i with
  | zero => omega
  | succ n ih =>
    cases i with
    | zero => simp [List.replicate_succ]
    | succ i =>
      rw [List.replicate_succ, List.getD_cons_succ]
      exact ih (by omega)

/-! ### Claim theorems -/

/-- C1: the spec says opcode 00E0 clears every framebuffer pixel, sets the
redraw flag and advances PC by 2, and that the 4th step of the §8 scenario
does so.  The code's `clr` case (src/chip8.cpp lines 159-161) has an empty
body, so the step changes nothing at all.  This theorem evaluates the
scenario: the first three steps behave as documented (V0=8, V1=3, VF=0,
PC=0x206), but the 4th fetch (bytes 0x00 0x00, dispatched to the same empty
`clr` case) returns the machine unchanged: redraw stays false, PC stays
0x206, and no pixel is written. -/
theorem c1_clear_opcode_does_nothing :
    scenAfter3.pc = 0x206 ∧ scenAfter3.reg 0 = 8 ∧ scenAfter3.reg 1 = 3 ∧
    scenAfter3.reg 0xF = 0 ∧
    emulate_op scenAfter3 = Except.ok scenAfter3 ∧
    scenAfter3.shouldRedraw = false :=
  ⟨by decide, by decide, by decide, by decide, rfl, by decide⟩

/-- C2 counterexample: the claim says that on a machine with the
awaiting-key flag set, `emulate_op` mutates no state at all.  But
`Chip8::emulate_op` never consults `m_AwaitingKey` (the check lives only in
the host loop, src/main.cpp line 137): on `awaitEx`, whose awaiting-key flag
is 0x82, a call still executes the fetched `mov V0, 5` and advances PC. -/
theorem c2_step_mutates_while_awaiting :
    awaitEx.awaitingKey = 0x82 ∧ awaitEx.reg 0 = 0 ∧ awaitEx.pc = 0x200 ∧
    (stepOr awaitEx).reg 0 = 5 ∧ (stepOr awaitEx).pc = 0x202 := by
  decide

/-- C2 (amended): suspension is enforced by the host loop, not by
`emulate_op`: the loop's execute phase skips `emulate_op` whenever
`m_AwaitingKey` is nonzero, hence mutates nothing, and the host key-down
delivery is the operation that stores the key into the awaited register and
clears the suspension. -/
theorem c2_hostloop_skips_when_awaiting :
    (∀ (p : Bool) (c : Chip8), c.awaitingKey ≠ 0 → host_step p c = Except.ok c)
  ∧ (∀ (c : Chip8) (k : Nat), c.awaitingKey ≠ 0 →
      (deliver_keydown k c).awaitingKey = 0 ∧
      (deliver_keydown k c).reg (c.awaitingKey &&& 0x7f) = k) := by
  constructor
  · intro p c h
    simp [host_step, h]
  · intro c k h
    simp [deliver_keydown, h]

/-- C2 witness: the amended claim at the concrete suspended machine
`awaitEx` and key 7. -/
theorem c2_hostloop_skips_when_awaiting_witness :
    (awaitEx.awaitingKey ≠ 0 ∧ host_step false awaitEx = Except.ok awaitEx)
  ∧ ((deliver_keydown 7 awaitEx).awaitingKey = 0 ∧
     (deliver_keydown 7 awaitEx).reg (awaitEx.awaitingKey &&& 0x7f) = 7) :=
  ⟨⟨by decide, c2_hostloop_skips_when_awaiting.1 false awaitEx (by decide)⟩,
   c2_hostloop_skips_when_awaiting.2 awaitEx 7 (by decide)⟩

/-- C3 counterexample: the claim says an opcode matching no case of its
family makes the step return a structured `UnknownOpcode` error without
terminating the hosting process.  On `badOpEx` (fetched opcode 0x0001,
unmatched in family 0x0) `Chip8::emulate_op` instead reaches the
`not_handled` macro, which prints the opcode and calls `exit(2)`: the
process terminates with status 2 (modelled as `Except.error 2`). -/
theorem c3_unknown_opcode_exits_process :
    unmatchedExit (fetchOp badOpEx) ∧ emulate_op badOpEx = Except.error 2 :=
  ⟨by decide, rfl⟩

/-- C3 (amended): an opcode unmatched in family 0x0, 0x8 or 0xF terminates
the hosting process with exit status 2 (after printing the opcode), rather
than returning a structured error value, with no machine state mutated
before the exit; and an opcode unmatched in family 0xE - whose inner switch
has no `default:` case at all - is silently ignored: the step returns the
machine unchanged, all state including PC left untouched. -/
theorem c3_unmatched_opcode_exit2 :
    (∀ c : Chip8, unmatchedExit (fetchOp c) → emulate_op c = Except.error 2)
  ∧ (∀ c : Chip8, unmatchedSilent (fetchOp c) → emulate_op c = Except.ok c) := by
  constructor
  · intro c h
    simp only [unmatchedExit] at h
    simp only [emulate_op]
    rcases h with ⟨hu, h1, h2⟩ | ⟨hu, h1, h2, h3, h4, h5, h6, h7, h8, h9⟩ |
      ⟨hu, h1, h2, h3, h4, h5, h6, h7, h8, h9⟩
    · rw [hu]
      simp [execOp, h1, h2]
    · rw [hu]
      simp [execOp, h1, h2, h3, h4, h5, h6, h7, h8, h9]
    · rw [hu]
      simp [execOp, h1, h2, h3, h4, h5, h6, h7, h8, h9]
  · intro c h
    simp only [unmatchedSilent] at h
    obtain ⟨hu, h1, h2⟩ := h
    simp only [emulate_op]
    rw [hu]
    simp [execOp, h1, h2]

/-- C3 witness: the amended claim at two concrete machines - `badOpEx`,
whose fetched opcode 0x0001 matches no case of family 0x0 and exits the
process, and `silentEx`, whose fetched opcode 0xE055 matches no case of
family 0xE and is silently ignored. -/
theorem c3_unmatched_opcode_exit2_witness :
    (unmatchedExit (fetchOp badOpEx) ∧ emulate_op badOpEx = Except.error 2)
  ∧ (unmatchedSilent (fetchOp silentEx) ∧
     emulate_op silentEx = Except.ok silentEx) :=
  ⟨⟨by decide, c3_unmatched_opcode_exit2.1 badOpEx (by decide)⟩,
   ⟨by decide, c3_unmatched_opcode_exit2.2 silentEx (by decide)⟩⟩

/-- C4: the spec (and the code's own comment block, src/chip8.cpp lines
314-318) says VF is 1 after a draw exactly when at least one previously-set
pixel was erased.  But the loop assigns `VF = (pixel == 1)` for every drawn
sprite bit (line 334), so the last drawn bit wins.  On `drawEx` the first
sprite bit erases the set pixel (0,0), yet the second bit lands on an empty
pixel and overwrites VF with 0: a pixel was erased and VF ends 0. -/
theorem c4_draw_vf_last_bit_wins :
    drawEx.video 0 = 1 ∧ (stepOr drawEx).video 0 = 0 ∧
    (stepOr drawEx).video 1 = 1 ∧ (stepOr drawEx).reg 0xF = 0 ∧
    (stepOr drawEx).shouldRedraw = true := by
  decide

lemma load_program_ok (bs : List Nat) (c : Chip8) (h : bs.length ≠ 0) :
    (load_program bs c).1 = true := by
  simp only [load_program]
  rw [if_neg h]

lemma load_program_mem_eq (bs : List Nat) (c : Chip8) (h : bs.length ≠ 0)
    (a : Nat) :
    (load_program bs c).2.mem a =
      if c.pc ≤ a ∧ a < c.pc + bs.length then bs.getD (a - c.pc) 0 % 256
      else c.mem a := by
  simp only [load_program]
  rw [if_neg h]
  exact range_foldl_update bs.length c.pc (fun i => bs.getD i 0 % 256) c.mem a

lemma load_program_frame (bs : List Nat) (c : Chip8) :
    (load_program bs c).2.reg = c.reg
  ∧ (load_program bs c).2.delayTimer = c.delayTimer
  ∧ (load_program bs c).2.soundTimer = c.soundTimer
  ∧ (load_program bs c).2.ir = c.ir
  ∧ (load_program bs c).2.pc = c.pc
  ∧ (load_program bs c).2.sp = c.sp := by
  by_cases h0 : bs.length = 0 <;> simp [load_program, h0]

/-- C5 counterexample: the claim says loading fails with a TooLarge error
when 0x200 + L exceeds 4096 and that no byte outside the 4096-byte memory is
ever written.  `Chip8::load_program` checks no upper bound: loading 3585
bytes (0x200 + 3585 = 4097 > 4096) succeeds (returns true) and writes the
out-of-range address 4096 (`m_Memory[4096]`, an out-of-bounds write in the
C++). -/
theorem c5_no_toolarge_check :
    (load_program (List.replicate 3585 7) zeroChip).1 = true
  ∧ 0x200 + (List.replicate 3585 7).length > 4096
  ∧ (load_program (List.replicate 3585 7) zeroChip).2.mem 4096 = 7 := by
  have hlen : (List.replicate 3585 (7 : Nat)).length = 3585 :=
    List.length_replicate 3585 7
  have hne : (List.replicate 3585 (7 : Nat)).length ≠ 0 := by
    rw [hlen]
    norm_num
  refine ⟨load_program_ok _ _ hne, ?_, ?_⟩
  · rw [hlen]
    norm_num
  · rw [load_program_mem_eq _ _ hne 4096]
    have hz : zeroChip.pc = 0x200 := rfl
    rw [hz, hlen]
    rw [if_pos (by norm_num)]
    rw [getD_replicate_of_lt 7 0 (show 4096 - 0x200 < 3585 by norm_num)]

/-- C5 (amended): loading a byte sequence of length L fails (returns false,
memory untouched, though `program_size` is still assigned) exactly when
L = 0; when L > 0 it returns true and writes exactly the bytes
[0x200, 0x200 + L) (PC being 0x200), leaving registers, timers, I, PC and SP
unchanged.  No TooLarge check exists: when 0x200 + L > 4096 the written
range extends past the end of the 4096-byte memory. -/
theorem c5_load_writes_exact_range (bs : List Nat) (c : Chip8)
    (hpc : c.pc = 0x200) :
    ((bs.length = 0 →
        load_program bs c = (false, { c with programSize := bs.length }))
  ∧ (bs.length ≠ 0 → (load_program bs c).1 = true ∧
      ∀ a, (load_program bs c).2.mem a =
        if 0x200 ≤ a ∧ a < 0x200 + bs.length then bs.getD (a - 0x200) 0 % 256
        else c.mem a))
  ∧ (load_program bs c).2.reg = c.reg
  ∧ (load_program bs c).2.delayTimer = c.delayTimer
  ∧ (load_program bs c).2.soundTimer = c.soundTimer
  ∧ (load_program bs c).2.ir = c.ir
  ∧ (load_program bs c).2.pc = c.pc
  ∧ (load_program bs c).2.sp = c.sp := by
  obtain ⟨f1, f2, f3, f4, f5, f6⟩ := load_program_frame bs c
  refine ⟨⟨fun h => ?_, fun h => ⟨load_program_ok bs c h, fun a => ?_⟩⟩,
    f1, f2, f3, f4, f5, f6⟩
  · simp [load_program, h]
  · rw [load_program_mem_eq bs c h a, hpc]

/-- C5 witness: the amended claim at the concrete two-byte program [1, 2]
loaded into a fresh zero machine. -/
theorem c5_load_writes_exact_range_witness :
    zeroChip.pc = 0x200
  ∧ ((((([1, 2] : List Nat).length = 0 →
        load_program [1, 2] zeroChip =
          (false, { zeroChip with programSize := ([1, 2] : List Nat).length }))
  ∧ (([1, 2] : List Nat).length ≠ 0 → (load_program [1, 2] zeroChip).1 = true ∧
      ∀ a, (load_program [1, 2] zeroChip).2.mem a =
        if 0x200 ≤ a ∧ a < 0x200 + ([1, 2] : List Nat).length then
          ([1, 2] : List Nat).getD (a - 0x200) 0 % 256
        else zeroChip.mem a))
  ∧ (load_program [1, 2] zeroChip).2.reg = zeroChip.reg
  ∧ (load_program [1, 2] zeroChip).2.delayTimer = zeroChip.delayTimer
  ∧ (load_program [1, 2] zeroChip).2.soundTimer = zeroChip.soundTimer
  ∧ (load_program [1, 2] zeroChip).2.ir = zeroChip.ir
  ∧ (load_program [1, 2] zeroChip).2.pc = zeroChip.pc
  ∧ (load_program [1, 2] zeroChip).2.sp = zeroChip.sp)) :=
  ⟨rfl, c5_load_writes_exact_range [1, 2] zeroChip rfl⟩

/-- C6 counterexample: the claim says VF after Fx1E is 1 exactly when the
pre-step I + Vx exceeds 255.  On `fx1eEx` (I = 100, V0 = 100, opcode
0xF01E) the pre-step sum is 200 ≤ 255, so the claim demands VF = 0; the
code computes the flag from the already-incremented I (line 393:
`m_InternalRegisters[IR] + Vx`, i.e. 200 + 100 = 300 > 255) and sets
VF = 1. -/
theorem c6_flag_from_post_increment :
    fx1eEx.ir + fx1eEx.reg 0 ≤ 0xff ∧ (stepOr fx1eEx).ir = 200 ∧
    (stepOr fx1eEx).reg 0xF = 1 := by
  decide

/-- C6 (amended): after Fx1E the index register I is the pre-step
I + Vx (mod 2^16), but VF is computed from the wrong operand: it is 1
exactly when the POST-increment I plus Vx exceeds 255 (the design-note
discrepancy of §9), not when the pre-step sum does. -/
theorem c6_fx1e_semantics (c : Chip8) (x : Nat)
    (hu : (fetchOp c >>> 8) >>> 4 = 0xF)
    (hl : fetchOp c &&& 0xff = 0x1E)
    (hx : (fetchOp c >>> 8) &&& 0xF = x) :
    emulate_op c = Except.ok { c with
      ir := (c.ir + c.reg x) % 65536,
      reg := Function.update c.reg 0xF
        (if (c.ir + c.reg x) % 65536 + c.reg x > 0xff then 1 else 0),
      pc := (c.pc + 2) % 65536 } := by
  simp only [emulate_op]
  rw [hu, hl, hx]
  simp [execOp]

/-- C6 witness: the amended claim at the concrete machine `fx1eEx`. -/
theorem c6_fx1e_semantics_witness :
    ((fetchOp fx1eEx >>> 8) >>> 4 = 0xF ∧ fetchOp fx1eEx &&& 0xff = 0x1E ∧
     (fetchOp fx1eEx >>> 8) &&& 0xF = 0)
  ∧ emulate_op fx1eEx = Except.ok { fx1eEx with
      ir := (fx1eEx.ir + fx1eEx.reg 0) % 65536,
      reg := Function.update fx1eEx.reg 0xF
        (if (fx1eEx.ir + fx1eEx.reg 0) % 65536 + fx1eEx.reg 0 > 0xff then 1
         else 0),
      pc := (fx1eEx.pc + 2) % 65536 } :=
  ⟨⟨by decide, by decide, by decide⟩,
   c6_fx1e_semantics fx1eEx 0 (by decide) (by decide) (by decide)⟩

/-- C7: the spec says that immediately after construction every memory byte
outside the 80-byte font region is 0 and the redraw flag is false.  The
constructor (src/chip8.cpp lines 43-58) never fills `m_Memory` beyond the
font copy, and neither `m_Memory`, `m_KeyPressed` nor `m_ShouldRedraw` has
an initializer in src/chip8.hpp, so those hold indeterminate values.  On
`junkInitEx` - construction over all-ones indeterminate storage - memory
byte 0x200 reads 1 and the redraw flag reads true, while the parts the
constructor does set (fonts, PC, SP, timers, registers) hold the documented
values. -/
theorem c7_memory_not_zeroed :
    junkInitEx.mem 0x200 = 1 ∧ junkInitEx.shouldRedraw = true ∧
    junkInitEx.keyPressed 0 = true ∧ junkInitEx.mem 0 = 0xF0 ∧
    junkInitEx.mem 79 = 0x80 ∧ junkInitEx.pc = 0x200 ∧ junkInitEx.sp = 0 ∧
    junkInitEx.delayTimer = 0 ∧ junkInitEx.soundTimer = 0 ∧
    junkInitEx.reg 0 = 0 ∧ junkInitEx.reg 0xF = 0 := by
  decide

/-- C8 counterexample: the claim states the 8xy4 formulas for every pair of
register indices.  On `aliasEx` (opcode 0x80F4, i.e. x = 0, y = 0xF, with
V0 = 1 and VF = 2) the claim demands V0 = (1 + 2) % 256 = 3; but the code
writes the carry flag into VF before performing `Vx += Vy` through
references (lines 249-251), so the addition reads the freshly written
VF = 0 and V0 ends at 1. -/
theorem c8_vf_operand_aliasing :
    (aliasEx.reg 0 + aliasEx.reg 0xF) % 256 = 3 ∧
    (stepOr aliasEx).reg 0 = 1 := by
  decide

/-- C8 (amended): for opcode 8xy4 with x ≠ 0xF and y ≠ 0xF, after the step
Vx = (pre Vx + pre Vy) mod 256 and VF = 1 exactly when pre Vx + pre Vy
exceeds 255 (in particular Vx=0xFF, Vy=0x01 gives Vx=0, VF=1); when x or y
is 0xF the flag write precedes the addition and aliases its operand, so the
stated formulas do not apply. -/
theorem c8_add_semantics (c : Chip8) (x y : Nat)
    (hu : (fetchOp c >>> 8) >>> 4 = 0x8)
    (hn : (fetchOp c &&& 0xff) &&& 0xf = 0x4)
    (hx : (fetchOp c >>> 8) &&& 0xF = x)
    (hy : (fetchOp c >>> 4) &&& 0xF = y)
    (hxF : x ≠ 0xF) (hyF : y ≠ 0xF) :
    (stepOr c).reg x = (c.reg x + c.reg y) % 256
  ∧ (stepOr c).reg 0xF = (if c.reg x + c.reg y > 0xff then 1 else 0)
  ∧ (stepOr c).pc = (c.pc + 2) % 65536 := by
  subst hx
  subst hy
  refine ⟨?_, ?_, ?_⟩ <;>
    · simp only [stepOr, emulate_op, execOp]
      simp only [hu, hn]
      simp [Function.update_same, Function.update_noteq hxF,
        Function.update_noteq hyF, Function.update_noteq (Ne.symm hxF)]

/-- C8 witness: the amended claim at the concrete machine `addEx`
(x = 0, y = 1, V0 = 0xFF, V1 = 0x01), reproducing the spec's example
Vx = 0x00, VF = 1. -/
theorem c8_add_semantics_witness :
    ((fetchOp addEx >>> 8) >>> 4 = 0x8 ∧ (fetchOp addEx &&& 0xff) &&& 0xf = 0x4 ∧
     (fetchOp addEx >>> 8) &&& 0xF = 0 ∧ (fetchOp addEx >>> 4) &&& 0xF = 1 ∧
     (0 : Nat) ≠ 0xF ∧ (1 : Nat) ≠ 0xF)
  ∧ ((stepOr addEx).reg 0 = (addEx.reg 0 + addEx.reg 1) % 256
     ∧ (stepOr addEx).reg 0xF = (if addEx.reg 0 + addEx.reg 1 > 0xff then 1 else 0)
     ∧ (stepOr addEx).pc = (addEx.pc + 2) % 65536) :=
  ⟨⟨by decide, by decide, by decide, by decide, by decide, by decide⟩,
   c8_add_semantics addEx 0 1 (by decide) (by decide) (by decide) (by decide)
     (by decide) (by decide)⟩

/-- C9: one step is a pure function of the machine state, and the random
opcode Cxkk draws from a freshly default-constructed `std::mt19937` on every
call (src/chip8.cpp lines 133, 308), so the drawn value is one fixed
constant: for every machine state whose fetched opcode is Cxkk, the step
stores `uniform_0_255_first &&& kk` - a closed constant independent of the
state, the step count and the run - into Vx and adds 2 to PC, leaving
everything else unchanged.  Two runs reaching Cxkk states with the same kk
therefore assign the identical value. -/
theorem c9_rand_is_fixed_constant (c : Chip8) (x kk : Nat)
    (hu : (fetchOp c >>> 8) >>> 4 = 0xC)
    (hx : (fetchOp c >>> 8) &&& 0xF = x)
    (hkk : fetchOp c &&& 0xFF = kk) :
    emulate_op c = Except.ok { c with
      reg := Function.update c.reg x (uniform_0_255_first &&& kk),
      pc := (c.pc + 2) % 65536 } := by
  simp only [emulate_op]
  rw [hu, hx, hkk]
  simp [execOp]

/-- C9 witness: the theorem at the concrete machine `rndEx` (opcode
0xC30F). -/
theorem c9_rand_is_fixed_constant_witness :
    ((fetchOp rndEx >>> 8) >>> 4 = 0xC ∧ (fetchOp rndEx >>> 8) &&& 0xF = 3 ∧
     fetchOp rndEx &&& 0xFF = 0x0F)
  ∧ emulate_op rndEx = Except.ok { rndEx with
      reg := Function.update rndEx.reg 3 (uniform_0_255_first &&& 0x0F),
      pc := (rndEx.pc + 2) % 65536 } :=
  ⟨⟨by decide, by decide, by decide⟩,
   c9_rand_is_fixed_constant rndEx 3 0x0F (by decide) (by decide) (by decide)⟩

/-- C10: the spec says the disassembler's decode is total, yielding a line
with an "unknown" mnemonic for every opcode unmapped in the table.  In
`Chip8::decode` the outer `default:` that appends "unknown" (line 552) is
unreachable - `msb >> 4` of a byte is always 0..15 and all 16 cases exist -
and the inner switches (families 0x0, 0x8, 0xE, 0xF) have no defaults, so an
unmapped opcode falls through with NOTHING appended: the produced line is
the bare address header with no mnemonic at all.  Opcode 0x0000 (also the
4th instruction of the §8 scenario) yields exactly the header. -/
theorem c10_unmapped_opcode_empty_mnemonic :
    decode 0x200 0x00 0x00 = "0200:  00 00  =>  " ∧
    decode_body 0x00 0x00 = "" ∧ decode_body 0x85 0x08 = "" ∧
    decode_body 0xE0 0x55 = "" ∧ decode_body 0xF0 0xFF = "" ∧
    decode_body 0x00 0xe0 = "clear" ∧ decode_body 0xD1 0x23 = "draw V1, V2, 0x3" := by
  decide
